import Mathlib

/-!
Verification development for the mail-system health / auto-update subsystem
(backend/src/emails/mail-diagnostics.service.ts and auto-updater.service.ts).

External effects (network probes, TLS sockets, child processes, the SQL data
source, timers) are modelled as explicit oracle values threaded through the
function being embedded; a fallible external call is an `Except String α`
whose `.error` constructor carries the thrown error's message.  Everything
the TypeScript functions compute from those outcomes is translated directly.
-/

/-- Tri-state status of one diagnostic check (the TS union "ok" | "warning" | "error"). -/
inductive CheckStatus
| ok
| warning
| error
deriving DecidableEq, Repr

/-- String form of a status, as it is stored in mail_diagnostics and compared in logBeforeAfterReport. -/
def statusString : CheckStatus → String
| .ok => "ok"
| .warning => "warning"
| .error => "error"

/-- Embedding of the DiagnosticCheck interface.  `details` is the opaque
key/value map (values rendered as strings); `errorMsg` is the optional field. -/
structure DiagnosticCheck where
  checkType : String
  status : CheckStatus
  details : List (String × String)
  errorMsg : Option String
  durationMs : Nat
deriving DecidableEq, Repr

/-- Embedding of the DiagnosticsReport interface (timestamp as an abstract tick). -/
structure DiagnosticsReport where
  timestamp : Nat
  overall : CheckStatus
  checks : List DiagnosticCheck
  repairsAttempted : List String
deriving DecidableEq, Repr

/-- Outcome of the SMTP probe performed inside checkSmtp: either the
credentials are missing, or transporter.verify() succeeded, or something in
the try block threw with the given message. -/
inductive SmtpProbe
| notConfigured
| verified
| failed (msg : String)
deriving DecidableEq, Repr

/-- Embedding of MailDiagnosticsService.checkSmtp.  `host`/`port` are the
configured values, `dur` the measured wall-clock duration. -/
def checkSmtp (host : String) (port : Nat) (probe : SmtpProbe) (dur : Nat) : DiagnosticCheck :=
  match probe with
  | .notConfigured =>
      { checkType := "smtp_send", status := .warning
        details := [("host", host), ("port", toString port), ("configured", "false")]
        errorMsg := some "SMTP credentials not configured", durationMs := dur }
  | .verified =>
      { checkType := "smtp_send", status := .ok
        details := [("host", host), ("port", toString port), ("verified", "true")]
        errorMsg := none, durationMs := dur }
  | .failed msg =>
      { checkType := "smtp_send", status := .error, details := []
        errorMsg := some msg, durationMs := dur }

/-- Outcome of the IMAP probe performed inside checkImap. -/
inductive ImapProbe
| notConfigured
| loggedIn (mailboxCount : Nat)
| failed (msg : String)
deriving DecidableEq, Repr

/-- Embedding of MailDiagnosticsService.checkImap. -/
def checkImap (host : String) (port : Nat) (probe : ImapProbe) (dur : Nat) : DiagnosticCheck :=
  match probe with
  | .notConfigured =>
      { checkType := "imap_login", status := .warning
        details := [("host", host), ("port", toString port), ("configured", "false")]
        errorMsg := some "IMAP credentials not configured", durationMs := dur }
  | .loggedIn mailboxCount =>
      { checkType := "imap_login", status := .ok
        details := [("host", host), ("port", toString port), ("mailboxCount", toString mailboxCount)]
        errorMsg := none, durationMs := dur }
  | .failed msg =>
      { checkType := "imap_login", status := .error, details := []
        errorMsg := some msg, durationMs := dur }

/-- Outcome of the TLS connection performed inside checkSslCertificate:
either the peer certificate was fetched (with the computed floor of
days-until-expiry, possibly negative, plus subject CN and expiry string), or
the connection threw / timed out with the given message. -/
inductive SslProbe
| reached (daysUntilExpiry : Int) (subject : String) (expiresAt : String)
| failed (msg : String)
deriving DecidableEq, Repr

/-- Embedding of MailDiagnosticsService.checkSslCertificate. -/
def checkSslCertificate (host : String) (probe : SslProbe) (dur : Nat) : DiagnosticCheck :=
  match probe with
  | .reached d subject expiresAt =>
      { checkType := "ssl_cert"
        status := if d > 14 then .ok else if d > 7 then .warning else .error
        details := [("host", host), ("subject", subject), ("expiresAt", expiresAt),
                    ("daysUntilExpiry", toString d)]
        errorMsg := none, durationMs := dur }
  | .failed msg =>
      { checkType := "ssl_cert", status := .error, details := []
        errorMsg := some msg, durationMs := dur }

/-- Outcome of the HTTP GET performed inside checkRoundcubeHealth. -/
inductive RoundcubeProbe
| responded (statusCode : Nat)
| failed (msg : String)
deriving DecidableEq, Repr

/-- Embedding of MailDiagnosticsService.checkRoundcubeHealth. -/
def checkRoundcubeHealth (url : String) (probe : RoundcubeProbe) (dur : Nat) : DiagnosticCheck :=
  match probe with
  | .responded statusCode =>
      { checkType := "roundcube_health"
        status := if statusCode = 200 then .ok else if statusCode < 500 then .warning else .error
        details := [("url", url), ("statusCode", toString statusCode)]
        errorMsg := none, durationMs := dur }
  | .failed msg =>
      { checkType := "roundcube_health", status := .error, details := []
        errorMsg := some msg, durationMs := dur }

/-- Embedding of MailDiagnosticsService.attemptRepair: a pure dispatch on
checkType returning the outcome tag, or null for unknown check types. -/
def attemptRepair (check : DiagnosticCheck) : Option String :=
  match check.checkType with
  | "smtp_send" => some "smtp-transporter-reinitialised"
  | "imap_login" => some "imap-connection-pool-reset"
  | "ssl_cert" => some "ssl-alert-logged"
  | "roundcube_health" => some "roundcube-container-auto-restart-pending"
  | _ => none

/-- A settled promise, mirroring PromiseSettledResult: fulfilled with a value,
or rejected with a reason whose optional .message is carried here. -/
inductive Settled (α : Type)
| fulfilled (value : α)
| rejected (reason : Option String)
deriving DecidableEq, Repr

/-- Embedding of the local `unwrap` closure in runFullDiagnostics: a rejected
check promise becomes an error CheckResult with checkType "unknown". -/
def unwrapSettled : Settled DiagnosticCheck → DiagnosticCheck
| .fulfilled v => v
| .rejected reason =>
    { checkType := "unknown", status := .error, details := []
      errorMsg := some (reason.getD "Promise rejected"), durationMs := 0 }

/-- Environment of one runFullDiagnostics call.  The four fields `smtp`,
`imap`, `ssl`, `roundcube` are the settled outcomes of the four check
promises (a fulfilled value is the DiagnosticCheck computed by checkSmtp,
checkImap, checkSslCertificate, checkRoundcubeHealth respectively; a
rejection models the promise rejecting outside that function's try/catch).
`persistOutcome` is the outcome of the mail_diagnostics INSERT issued by
persistCheck for a given check; `prevRows` is the outcome of the
(check_type, status) SELECT issued by logBeforeAfterReport; `now` is the
report timestamp. -/
structure DiagEnv where
  smtp : Settled DiagnosticCheck
  imap : Settled DiagnosticCheck
  ssl : Settled DiagnosticCheck
  roundcube : Settled DiagnosticCheck
  persistOutcome : DiagnosticCheck → Except String Unit
  prevRows : Except String (List (String × String))
  now : Nat

/-- Embedding of persistCheck: the INSERT is wrapped in try/catch, so a DB
failure is only logged (the returned value is the log line) and never
propagates. -/
def persistCheck (dbInsert : Except String Unit) : Option String :=
  match dbInsert with
  | .ok _ => none
  | .error e => some ("Failed to persist diagnostic check: " ++ e)

/-- Embedding of the body of logBeforeAfterReport after its SELECT succeeded:
Object.fromEntries keeps the last row per check_type, a missing entry reads
"unknown", and one diff line is produced per check whose status changed. -/
def beforeAfterDiffLines (prev : List (String × String)) (after : DiagnosticsReport) : List String :=
  after.checks.filterMap fun check =>
    let before := (((prev.filter (fun r => r.1 == check.checkType)).getLast?).map (·.2)).getD "unknown"
    if before ≠ statusString check.status then
      some ("  [" ++ check.checkType ++ "] " ++ before ++ " → " ++ statusString check.status)
    else none

/-- The DiagnosticsReport computed by runFullDiagnostics from the settled
check outcomes: the four unwrapped results in registration order, the repair
tags collected for checks with status error, and the worst-case overall. -/
def diagReport (env : DiagEnv) : DiagnosticsReport :=
  let checks := [unwrapSettled env.smtp, unwrapSettled env.imap,
                 unwrapSettled env.ssl, unwrapSettled env.roundcube]
  let repairsAttempted := checks.filterMap fun c =>
    if c.status = .error then attemptRepair c else none
  let overall : CheckStatus :=
    if checks.any (fun c => c.status = .error) then .error
    else if checks.any (fun c => c.status = .warning) then .warning
    else .ok
  { timestamp := env.now, overall := overall, checks := checks
    repairsAttempted := repairsAttempted }

/-- Embedding of MailDiagnosticsService.runFullDiagnostics.  The check
fan-out never rejects the whole run (Promise.allSettled) and persistCheck
swallows its own DB failures, so the only way the function can throw is the
unguarded SELECT inside logBeforeAfterReport, reached only when
`beforeAfter` is true. -/
def runFullDiagnostics (env : DiagEnv) (beforeAfter : Bool) : Except String DiagnosticsReport :=
  let report := diagReport env
  let _persistLogs := report.checks.map fun c => persistCheck (env.persistOutcome c)
  if beforeAfter then
    match env.prevRows with
    | .error e => .error e
    | .ok prev =>
        let _diff := beforeAfterDiffLines prev report
        .ok report
  else .ok report

/-- Embedding of the UpdateCheckResult interface. -/
structure UpdateCheckResult where
  component : String
  currentVersion : String
  latestVersion : String
  updateAvailable : Bool
deriving DecidableEq, Repr

/-- Embedding of the UpdateResult interface. -/
structure UpdateResult where
  component : String
  previousVersion : String
  newVersion : String
  success : Bool
  logOutput : String
deriving DecidableEq, Repr

/-- Helper for the tag regex: a character list of the shape one-or-more
digits, a dot, one-or-more digits. -/
def versionTwoPart (cs : List Char) : Bool :=
  match cs.splitOn '.' with
  | [a, b] => !a.isEmpty && !b.isEmpty && a.all Char.isDigit && b.all Char.isDigit
  | _ => false

/-- The tag regex used by checkRoundcube, ^\d+\.\d+-apache$: one or more
digits, a dot, one or more digits, then the literal "-apache" and nothing
else (spelled out over the character list). -/
def isApacheTag (t : String) : Bool :=
  let cs := t.data
  let n := cs.length
  decide (7 ≤ n) && (cs.drop (n - 7) == "-apache".data) && versionTwoPart (cs.take (n - 7))

/-- Embedding of AutoUpdaterService.checkRoundcube.  `tags` is the outcome of
the Docker Hub fetch: the list of tag names on success (data.results may be
empty), or the thrown error on failure.  The current version is the pinned
docker-compose value. -/
def checkRoundcube (tags : Except String (List String)) : UpdateCheckResult :=
  match tags with
  | .error _ =>
      { component := "roundcube", currentVersion := "unknown"
        latestVersion := "unknown", updateAvailable := false }
  | .ok tagList =>
      let latest := (tagList.find? isApacheTag).getD "unknown"
      let current := "1.6-apache"
      { component := "roundcube", currentVersion := current
        latestVersion := latest, updateAvailable := current != latest }

/-- Embedding of AutoUpdaterService.checkNpmPackage.  `registryLatest` is the
outcome of the npm registry fetch (`.ok none` when the JSON lacks a version
field, so latest falls back to "unknown"); `installed` is the version read
from node_modules, none when the require throws (package not installed). -/
def checkNpmPackage (registryLatest : Except String (Option String))
    (installed : Option String) (component : String) : UpdateCheckResult :=
  match registryLatest with
  | .error _ =>
      { component := component, currentVersion := "unknown"
        latestVersion := "unknown", updateAvailable := false }
  | .ok v =>
      let latest := v.getD "unknown"
      let current := installed.getD "unknown"
      { component := component, currentVersion := current, latestVersion := latest
        updateAvailable := current != "unknown" && current != latest }

/-- Embedding of execSafe: execSync either returns the command output or
throws; the catch converts the thrown message into an "EXEC ERROR" string, so
execSafe itself never throws. -/
def execSafe (execOutcome : Except String String) : String :=
  match execOutcome with
  | .ok out => out
  | .error e => "EXEC ERROR: " ++ e

/-- Outcome of the try-block body of installUpdate for one component: the
body is a sequence of execSafe calls and string concatenations driven by the
external process layer, treated as an opaque possibly-failing step.
`completed log` is the accumulated logOutput on normal completion; `thrown`
records the logOutput accumulated before an exception escaped mid-action,
with the exception's message. -/
inductive InstallOutcome
| completed (log : String)
| thrown (logSoFar : String) (msg : String)
deriving DecidableEq, Repr

/-- Embedding of AutoUpdaterService.installUpdate: on normal completion of
the body, success with the accumulated log; when the body throws, the catch
returns success = false with the thrown message appended to the partial log. -/
def installUpdate (outcome : InstallOutcome) (check : UpdateCheckResult) : UpdateResult :=
  match outcome with
  | .completed log =>
      { component := check.component, previousVersion := check.currentVersion
        newVersion := check.latestVersion, success := true, logOutput := log }
  | .thrown logSoFar msg =>
      { component := check.component, previousVersion := check.currentVersion
        newVersion := check.latestVersion, success := false
        logOutput := logSoFar ++ "\nERROR: " ++ msg }

/-- One row of the update_history table as written by saveUpdateHistory. -/
structure UpdateHistoryRow where
  component : String
  previousVersion : String
  newVersion : String
  status : String
  logOutput : String
deriving DecidableEq, Repr

/-- The INSERT values saveUpdateHistory derives from an UpdateResult. -/
def updateHistoryRow (r : UpdateResult) : UpdateHistoryRow :=
  { component := r.component, previousVersion := r.previousVersion
    newVersion := r.newVersion, status := if r.success then "success" else "failed"
    logOutput := r.logOutput }

/-- The updateProgress status union of AutoUpdaterService. -/
inductive ProgressStatus
| idle
| checking
| installing
| repairing
| done
| failed
deriving DecidableEq, Repr

/-- The mutable updateProgress record. -/
structure UpdateProgress where
  status : ProgressStatus
  message : String
  progress : Nat
  component : Option String
deriving DecidableEq, Repr

/-- Side effects the orchestrator can perform on its collaborators, recorded
as a trace: the maintenance flag of MailDiagnosticsService and the pause /
resume calls on the email-processing queue. -/
inductive OrchEvent
| diagMaintenanceOn
| diagMaintenanceOff
| queuePause
| queueResume
deriving DecidableEq, Repr

/-- The mutable state owned by AutoUpdaterService together with the state of
its collaborators: the busy flag, the progress record, the maintenance flag
of the diagnostics service, whether the email queue is paused, the
update_history rows persisted so far, and the trace of collaborator calls. -/
structure UpdaterState where
  isUpdating : Bool
  updateProgress : UpdateProgress
  maintenanceMode : Bool
  queuePaused : Bool
  history : List UpdateHistoryRow
  trace : List OrchEvent
deriving DecidableEq, Repr

/-- Embedding of AutoUpdaterService.setProgress: overwrite the progress record. -/
def setProgress (st : UpdaterState) (status : ProgressStatus) (message : String)
    (progress : Nat) (component : Option String) : UpdaterState :=
  { st with updateProgress :=
      { status := status, message := message, progress := progress, component := component } }

/-- Embedding of enterMaintenanceMode: set the diagnostics maintenance flag,
then pause the email queue. -/
def enterMaintenanceMode (st : UpdaterState) : UpdaterState :=
  { st with maintenanceMode := true, queuePaused := true
            trace := st.trace ++ [.diagMaintenanceOn, .queuePause] }

/-- Embedding of exitMaintenanceMode: resume the email queue, then clear the
diagnostics maintenance flag. -/
def exitMaintenanceMode (st : UpdaterState) : UpdaterState :=
  { st with maintenanceMode := false, queuePaused := false
            trace := st.trace ++ [.queueResume, .diagMaintenanceOff] }

/-- Embedding of saveUpdateHistory: attempt the update_history INSERT; the
try/catch swallows a DB failure (the row is then not persisted, only an error
is logged), so the call never throws. -/
def saveUpdateHistory (dbInsertOk : UpdateResult → Bool) (st : UpdaterState)
    (r : UpdateResult) : UpdaterState :=
  if dbInsertOk r then { st with history := st.history ++ [updateHistoryRow r] } else st

/-- External outcomes one npm-package version check depends on. -/
structure NpmCheckEnv where
  registryLatest : Except String (Option String)
  installed : Option String

/-- Environment of one checkAndInstallAll cycle: the fetch outcomes of the
four version checks, the install-step outcome per component, the
update_history INSERT outcome per result, and the diagnostics environment of
the n-th runFullDiagnostics call of the cycle (0 = the post-install
before/after run, n ≥ 1 = the n-th repair re-run). -/
structure OrchestratorEnv where
  roundcubeTags : Except String (List String)
  whatsapp : NpmCheckEnv
  instagram : NpmCheckEnv
  nestjs : NpmCheckEnv
  install : UpdateCheckResult → InstallOutcome
  dbInsertOk : UpdateResult → Bool
  diag : Nat → DiagEnv

/-- Embedding of AutoUpdaterService.checkAll: the four component checks, in
registration order. -/
def checkAll (env : OrchestratorEnv) : List UpdateCheckResult :=
  [checkRoundcube env.roundcubeTags,
   checkNpmPackage env.whatsapp.registryLatest env.whatsapp.installed "whatsapp-api",
   checkNpmPackage env.instagram.registryLatest env.instagram.installed "instagram-api",
   checkNpmPackage env.nestjs.registryLatest env.nestjs.installed "nestjs-core"]

/-- The components with updateAvailable, as filtered in phase 1. -/
def pendingUpdates (env : OrchestratorEnv) : List UpdateCheckResult :=
  (checkAll env).filter (·.updateAvailable)

/-- Embedding of the phase-3 install loop: for each pending component in
order, set progress, apply installUpdate, collect the result, attempt to
persist it with saveUpdateHistory, and advance the progress step by
min(step + 20, 80).  The loop has no break: every pending component is
attempted regardless of earlier failures. -/
def installLoop (env : OrchestratorEnv) :
    List UpdateCheckResult → UpdaterState → Nat → UpdaterState × List UpdateResult
| [], st, _ => (st, [])
| check :: rest, st, progressStep =>
    let st := setProgress st .installing ("Installing " ++ check.component ++ "…")
      progressStep (some check.component)
    let result := installUpdate (env.install check) check
    let st := saveUpdateHistory env.dbInsertOk st result
    let next := installLoop env rest st (min (progressStep + 20) 80)
    (next.1, result :: next.2)

/-- Embedding of the phase-4 repair loop: while the report's overall is
error and fewer than 3 attempts were made, wait the fixed backoff and re-run
runFullDiagnostics without before/after (which always yields diagReport of
the attempt's environment).  Returns the final report and the number of
attempts used.  The per-attempt progress writes are transient (overwritten
by the terminal setProgress before checkAndInstallAll returns) and are not
modelled. -/
def repairLoopFuel (diag : Nat → DiagEnv) :
    Nat → DiagnosticsReport → Nat → DiagnosticsReport × Nat
| 0, report, attempts => (report, attempts)
| fuel + 1, report, attempts =>
    if report.overall = .error ∧ attempts < 3 then
      repairLoopFuel diag fuel (diagReport (diag (attempts + 1))) (attempts + 1)
    else (report, attempts)

/-- The loop itself: the guard attempts < 3 allows at most 3 - attempts
further iterations, so fuel 3 - attempts makes repairLoopFuel implement the
while loop exactly (the stop and step equations below are those of the
loop). -/
def repairLoop (diag : Nat → DiagEnv) (report : DiagnosticsReport) (attempts : Nat) :
    DiagnosticsReport × Nat :=
  repairLoopFuel diag (3 - attempts) report attempts

/-- The value and state a checkAndInstallAll call produces: the final
service/collaborator state, and the returned results and diagnosticsStatus. -/
structure RunOutcome where
  finalState : UpdaterState
  results : List UpdateResult
  diagnosticsStatus : String
deriving DecidableEq, Repr

/-- Embedding of AutoUpdaterService.checkAndInstallAll.  The busy check is
first; every non-busy path runs inside try/finally so the busy flag is
cleared on exit.  The only statement in the try block that can throw is the
before/after SELECT inside runFullDiagnostics(true) (checkAll and the check
functions catch internally, installUpdate and saveUpdateHistory catch
internally, maintenance-mode collaborator calls are modelled as infallible
per their interface contract); its failure is caught at the orchestrator
boundary, which records the failed progress, force-exits maintenance mode
and returns diagnosticsStatus "error". -/
def checkAndInstallAll (env : OrchestratorEnv) (st0 : UpdaterState) : RunOutcome :=
  if st0.isUpdating then
    { finalState := st0, results := [], diagnosticsStatus := "update-already-in-progress" }
  else
    let st := { st0 with isUpdating := true }
    let st := setProgress st .checking "Checking for available updates…" 5 none
    let pending := pendingUpdates env
    if pending.isEmpty then
      let st := setProgress st .done "All components are up to date." 100 none
      { finalState := { st with isUpdating := false }, results := []
        diagnosticsStatus := "ok" }
    else
      let st := setProgress st .installing
        ("Updates available for: " ++ String.intercalate ", " (pending.map (·.component)))
        10 none
      let st := enterMaintenanceMode st
      let stepped := installLoop env pending st 15
      let st := stepped.1
      let results := stepped.2
      let st := setProgress st .repairing "Running post-update diagnostics…" 85 none
      let st := exitMaintenanceMode st
      match runFullDiagnostics (env.diag 0) true with
      | .error e =>
          let st := setProgress st .failed ("Update failed: " ++ e) 100 none
          let st := exitMaintenanceMode st
          { finalState := { st with isUpdating := false }, results := results
            diagnosticsStatus := "error" }
      | .ok report0 =>
          let looped := repairLoop env.diag report0 0
          let finalStatus := looped.1.overall
          let st := setProgress st (if finalStatus = .ok then .done else .failed)
            (if finalStatus = .ok then "All updates installed and system is stable."
             else "Updates installed but some checks still failing – manual review needed.")
            100 none
          { finalState := { st with isUpdating := false }, results := results
            diagnosticsStatus := statusString finalStatus }

/-- A diagnostics environment in which all four checks settle ok, the
persistence INSERTs succeed and the before/after SELECT returns no rows. -/
def sampleDiagEnvOk : DiagEnv :=
  { smtp := .fulfilled (checkSmtp "mail.example.com" 587 .verified 3)
    imap := .fulfilled (checkImap "mail.example.com" 993 (.loggedIn 4) 3)
    ssl := .fulfilled (checkSslCertificate "mail.example.com" (.reached 60 "mail.example.com" "2026-12-01") 3)
    roundcube := .fulfilled (checkRoundcubeHealth "http://127.0.0.1:8080" (.responded 200) 3)
    persistOutcome := fun _ => .ok ()
    prevRows := .ok []
    now := 0 }

/-- Like sampleDiagEnvOk but the SMTP credentials are not configured, so the
smtp_send check settles with a warning and the report's overall is warning. -/
def sampleDiagEnvWarn : DiagEnv :=
  { sampleDiagEnvOk with
      smtp := .fulfilled (checkSmtp "mail.example.com" 587 .notConfigured 3) }

/-- Like sampleDiagEnvOk but the before/after SELECT of logBeforeAfterReport
throws. -/
def sampleDiagEnvDbDown : DiagEnv :=
  { sampleDiagEnvOk with prevRows := .error "connection refused" }

/-- The service state at construction time: idle, not busy, no maintenance,
queue running, empty history. -/
def initialState : UpdaterState :=
  { isUpdating := false
    updateProgress := { status := .idle, message := "", progress := 0, component := none }
    maintenanceMode := false
    queuePaused := false
    history := []
    trace := [] }

/-- A state in which another update cycle is already in flight. -/
def busyState : UpdaterState := { initialState with isUpdating := true }

/-- An orchestration environment with one pending update (roundcube 1.6 →
1.7), a successful install, reliable history INSERTs, and every diagnostics
run settling with overall = warning (unconfigured SMTP credentials). -/
def sampleOrchEnvWarn : OrchestratorEnv :=
  { roundcubeTags := .ok ["1.7-apache"]
    whatsapp := { registryLatest := .error "network unreachable", installed := none }
    instagram := { registryLatest := .error "network unreachable", installed := none }
    nestjs := { registryLatest := .error "network unreachable", installed := none }
    install := fun _ => .completed "pulled 1.7-apache"
    dbInsertOk := fun _ => true
    diag := fun _ => sampleDiagEnvWarn }

/-- Like sampleOrchEnvWarn but every diagnostics run settles all-ok. -/
def sampleOrchEnvOk : OrchestratorEnv :=
  { sampleOrchEnvWarn with diag := fun _ => sampleDiagEnvOk }

/-- Like sampleOrchEnvOk but the roundcube install step throws mid-action
after a partial log. -/
def sampleOrchEnvThrown : OrchestratorEnv :=
  { sampleOrchEnvOk with
      install := fun c =>
        if c.component = "roundcube" then .thrown "pull started" "docker daemon crashed"
        else .completed "installed" }

/-- Like sampleOrchEnvOk but the post-install before/after diagnostics run
throws from the history SELECT. -/
def sampleOrchEnvDbDown : OrchestratorEnv :=
  { sampleOrchEnvOk with diag := fun _ => sampleDiagEnvDbDown }

lemma runFullDiagnostics_false (env : DiagEnv) :
    runFullDiagnostics env false = .ok (diagReport env) := rfl

lemma runFullDiagnostics_true_ok (env : DiagEnv) (rows : List (String × String))
    (h : env.prevRows = .ok rows) :
    runFullDiagnostics env true = .ok (diagReport env) := by
  unfold runFullDiagnostics
  rw [h]
  rfl

lemma runFullDiagnostics_true_err (env : DiagEnv) (e : String)
    (h : env.prevRows = .error e) :
    runFullDiagnostics env true = .error e := by
  unfold runFullDiagnostics
  rw [h]
  rfl

lemma repairLoop_stop (diag : Nat → DiagEnv) (r : DiagnosticsReport) (a : Nat)
    (h : ¬(r.overall = .error ∧ a < 3)) :
    repairLoop diag r a = (r, a) := by
  unfold repairLoop
  cases h3 : 3 - a with
  | zero => rfl
  | succ fuel => simp [repairLoopFuel, h]

lemma repairLoop_step (diag : Nat → DiagEnv) (r : DiagnosticsReport) (a : Nat)
    (h : r.overall = .error ∧ a < 3) :
    repairLoop diag r a = repairLoop diag (diagReport (diag (a + 1))) (a + 1) := by
  unfold repairLoop
  have h3 : 3 - a = (3 - (a + 1)) + 1 := by omega
  rw [h3]
  simp [repairLoopFuel, h]

lemma repairLoop_spec (diag : Nat → DiagEnv) (n : Nat) :
    ∀ (r : DiagnosticsReport) (a : Nat), 3 - a ≤ n → a ≤ 3 →
      (repairLoop diag r a).2 ≤ 3 ∧
        ((repairLoop diag r a).1.overall = .error → (repairLoop diag r a).2 = 3) := by
  induction n with
  | zero =>
      intro r a hn ha
      have ha3 : a = 3 := by omega
      rw [repairLoop_stop diag r a (by omega)]
      exact ⟨by omega, fun _ => ha3⟩
  | succ n ih =>
      intro r a hn ha
      by_cases h : r.overall = .error ∧ a < 3
      · rw [repairLoop_step diag r a h]
        exact ih _ (a + 1) (by omega) (by omega)
      · rw [repairLoop_stop diag r a h]
        refine ⟨ha, fun he => ?_⟩
        rcases not_and_or.mp h with h1 | h2
        · exact absurd he h1
        · omega

lemma installLoop_results (env : OrchestratorEnv) (pending : List UpdateCheckResult) :
    ∀ (st : UpdaterState) (step : Nat),
      (installLoop env pending st step).2
        = pending.map (fun c => installUpdate (env.install c) c) := by
  induction pending with
  | nil => intro st step; rfl
  | cons check rest ih =>
      intro st step
      simp [installLoop, ih]

lemma installLoop_history (env : OrchestratorEnv) (hdb : ∀ r, env.dbInsertOk r = true)
    (pending : List UpdateCheckResult) :
    ∀ (st : UpdaterState) (step : Nat),
      (installLoop env pending st step).1.history
        = st.history
            ++ (pending.map (fun c => installUpdate (env.install c) c)).map updateHistoryRow := by
  induction pending with
  | nil => intro st step; simp [installLoop]
  | cons check rest ih =>
      intro st step
      simp [installLoop, ih, saveUpdateHistory, hdb, setProgress]

lemma saveUpdateHistory_flags (f : UpdateResult → Bool) (st : UpdaterState) (r : UpdateResult) :
    (saveUpdateHistory f st r).isUpdating = st.isUpdating ∧
      (saveUpdateHistory f st r).maintenanceMode = st.maintenanceMode ∧
      (saveUpdateHistory f st r).queuePaused = st.queuePaused := by
  unfold saveUpdateHistory
  split <;> exact ⟨rfl, rfl, rfl⟩

lemma installLoop_flags (env : OrchestratorEnv) (pending : List UpdateCheckResult) :
    ∀ (st : UpdaterState) (step : Nat),
      (installLoop env pending st step).1.isUpdating = st.isUpdating ∧
        (installLoop env pending st step).1.maintenanceMode = st.maintenanceMode ∧
        (installLoop env pending st step).1.queuePaused = st.queuePaused := by
  induction pending with
  | nil => intro st step; exact ⟨rfl, rfl, rfl⟩
  | cons check rest ih =>
      intro st step
      simp only [installLoop]
      refine ⟨?_, ?_, ?_⟩
      · rw [(ih _ _).1, (saveUpdateHistory_flags _ _ _).1]; rfl
      · rw [(ih _ _).2.1, (saveUpdateHistory_flags _ _ _).2.1]; rfl
      · rw [(ih _ _).2.2, (saveUpdateHistory_flags _ _ _).2.2]; rfl

lemma checkAndInstallAll_busy (env : OrchestratorEnv) (st : UpdaterState)
    (h : st.isUpdating = true) :
    checkAndInstallAll env st
      = { finalState := st, results := [], diagnosticsStatus := "update-already-in-progress" } := by
  unfold checkAndInstallAll
  simp [h]

/-- C3: a trigger of checkAndInstallAll while the busy flag is set returns
the "update-already-in-progress" rejection immediately: no results, and the
update_history table receives no rows from the rejected trigger. -/
theorem C3_busy_trigger_rejected (env : OrchestratorEnv) (st : UpdaterState)
    (h : st.isUpdating = true) :
    (checkAndInstallAll env st).diagnosticsStatus = "update-already-in-progress" ∧
      (checkAndInstallAll env st).results = [] ∧
      (checkAndInstallAll env st).finalState.history = st.history := by
  rw [checkAndInstallAll_busy env st h]
  exact ⟨rfl, rfl, rfl⟩

theorem C3_busy_trigger_rejected_witness :
    (checkAndInstallAll sampleOrchEnvOk busyState).diagnosticsStatus
        = "update-already-in-progress" ∧
      (checkAndInstallAll sampleOrchEnvOk busyState).results = [] ∧
      (checkAndInstallAll sampleOrchEnvOk busyState).finalState.history = busyState.history :=
  C3_busy_trigger_rejected sampleOrchEnvOk busyState rfl

/-- C10: a call of checkAndInstallAll while the busy flag is set leaves the
whole observable state untouched: the progress record polled by clients is
unchanged, the maintenance flag and the queue pause state are unchanged, and
no collaborator call (maintenance enter/exit, queue pause/resume) happens. -/
theorem C10_busy_trigger_frame (env : OrchestratorEnv) (st : UpdaterState)
    (h : st.isUpdating = true) :
    (checkAndInstallAll env st).finalState.updateProgress = st.updateProgress ∧
      (checkAndInstallAll env st).finalState.maintenanceMode = st.maintenanceMode ∧
      (checkAndInstallAll env st).finalState.queuePaused = st.queuePaused ∧
      (checkAndInstallAll env st).finalState.trace = st.trace := by
  rw [checkAndInstallAll_busy env st h]
  exact ⟨rfl, rfl, rfl, rfl⟩

theorem C10_busy_trigger_frame_witness :
    (checkAndInstallAll sampleOrchEnvWarn busyState).finalState.updateProgress
        = busyState.updateProgress ∧
      (checkAndInstallAll sampleOrchEnvWarn busyState).finalState.maintenanceMode
        = busyState.maintenanceMode ∧
      (checkAndInstallAll sampleOrchEnvWarn busyState).finalState.queuePaused
        = busyState.queuePaused ∧
      (checkAndInstallAll sampleOrchEnvWarn busyState).finalState.trace = busyState.trace :=
  C10_busy_trigger_frame sampleOrchEnvWarn busyState rfl

/-- C9: on every admitted (non-busy) call of checkAndInstallAll the busy
flag is false again when the call returns, on the up-to-date early return,
the success path, and the exception path alike; and when the before/after
diagnostics run throws while updates were pending, the exception is caught
at the orchestrator boundary, the terminal progress status is failed,
maintenance mode is exited (flag cleared, queue resumed), and the caller
receives the typed "error" result. -/
theorem C9_boundary_catch_and_finally (env : OrchestratorEnv) (st : UpdaterState)
    (h0 : st.isUpdating = false) :
    (checkAndInstallAll env st).finalState.isUpdating = false ∧
      (∀ e, (env.diag 0).prevRows = .error e → (pendingUpdates env).isEmpty = false →
        (checkAndInstallAll env st).finalState.updateProgress.status = .failed ∧
          (checkAndInstallAll env st).finalState.maintenanceMode = false ∧
          (checkAndInstallAll env st).finalState.queuePaused = false ∧
          (checkAndInstallAll env st).diagnosticsStatus = "error") := by
  constructor
  · unfold checkAndInstallAll
    by_cases hP : (pendingUpdates env).isEmpty
    · simp [h0, hP]
    · cases hD : runFullDiagnostics (env.diag 0) true <;> simp [h0, hP, hD]
  · intro e he hP
    have hD := runFullDiagnostics_true_err (env.diag 0) e he
    unfold checkAndInstallAll
    simp [h0, hP, hD, setProgress, exitMaintenanceMode]

theorem C9_boundary_catch_and_finally_witness :
    (checkAndInstallAll sampleOrchEnvDbDown initialState).finalState.isUpdating = false ∧
      (∀ e, (sampleOrchEnvDbDown.diag 0).prevRows = .error e →
        (pendingUpdates sampleOrchEnvDbDown).isEmpty = false →
        (checkAndInstallAll sampleOrchEnvDbDown initialState).finalState.updateProgress.status
            = .failed ∧
          (checkAndInstallAll sampleOrchEnvDbDown initialState).finalState.maintenanceMode
            = false ∧
          (checkAndInstallAll sampleOrchEnvDbDown initialState).finalState.queuePaused = false ∧
          (checkAndInstallAll sampleOrchEnvDbDown initialState).diagnosticsStatus = "error") :=
  C9_boundary_catch_and_finally sampleOrchEnvDbDown initialState rfl

/-- C2 counterexample: with one pending update and every diagnostics run
settling at overall = warning (never error), the repair loop exits at once
with a final report whose overall is warning — not error — yet the
orchestrator's terminal progress status is failed, not done, refuting
"terminal status is done whenever the last report's overall is not error". -/
theorem C2_counterexample :
    (repairLoop sampleOrchEnvWarn.diag (diagReport (sampleOrchEnvWarn.diag 0)) 0).1.overall
        = CheckStatus.warning ∧
      (checkAndInstallAll sampleOrchEnvWarn initialState).finalState.updateProgress.status
        = ProgressStatus.failed ∧
      (checkAndInstallAll sampleOrchEnvWarn initialState).finalState.updateProgress.status
        ≠ ProgressStatus.done := by
  refine ⟨rfl, rfl, ?_⟩
  decide

/-- C2 amended: for every cycle that reaches the repair loop (non-busy
trigger, at least one pending update, post-install diagnostics did not
throw), the terminal progress status is done exactly when the repair loop's
final report has overall = ok, and failed exactly when it does not (warning
or error); the loop performs at most 3 re-runs, and a final overall of
error can only occur with the budget of 3 re-runs exhausted. -/
theorem C2_terminal_status (env : OrchestratorEnv) (st : UpdaterState)
    (h0 : st.isUpdating = false)
    (hP : (pendingUpdates env).isEmpty = false)
    (rows : List (String × String)) (hrows : (env.diag 0).prevRows = .ok rows) :
    ((checkAndInstallAll env st).finalState.updateProgress.status = .done
        ↔ (repairLoop env.diag (diagReport (env.diag 0)) 0).1.overall = .ok) ∧
      ((checkAndInstallAll env st).finalState.updateProgress.status = .failed
        ↔ (repairLoop env.diag (diagReport (env.diag 0)) 0).1.overall ≠ .ok) ∧
      (repairLoop env.diag (diagReport (env.diag 0)) 0).2 ≤ 3 ∧
      ((repairLoop env.diag (diagReport (env.diag 0)) 0).1.overall = .error
        → (repairLoop env.diag (diagReport (env.diag 0)) 0).2 = 3) := by
  have hD := runFullDiagnostics_true_ok (env.diag 0) rows hrows
  have hspec := repairLoop_spec env.diag 3 (diagReport (env.diag 0)) 0 (by omega) (by omega)
  refine ⟨?_, ?_, hspec.1, hspec.2⟩ <;>
    unfold checkAndInstallAll <;>
    by_cases hc : (repairLoop env.diag (diagReport (env.diag 0)) 0).1.overall = .ok <;>
    simp [h0, hP, hD, hc, setProgress, exitMaintenanceMode]

theorem C2_terminal_status_witness :
    ((checkAndInstallAll sampleOrchEnvOk initialState).finalState.updateProgress.status = .done
        ↔ (repairLoop sampleOrchEnvOk.diag (diagReport (sampleOrchEnvOk.diag 0)) 0).1.overall
            = .ok) ∧
      ((checkAndInstallAll sampleOrchEnvOk initialState).finalState.updateProgress.status
            = .failed
        ↔ (repairLoop sampleOrchEnvOk.diag (diagReport (sampleOrchEnvOk.diag 0)) 0).1.overall
            ≠ .ok) ∧
      (repairLoop sampleOrchEnvOk.diag (diagReport (sampleOrchEnvOk.diag 0)) 0).2 ≤ 3 ∧
      ((repairLoop sampleOrchEnvOk.diag (diagReport (sampleOrchEnvOk.diag 0)) 0).1.overall
          = .error
        → (repairLoop sampleOrchEnvOk.diag (diagReport (sampleOrchEnvOk.diag 0)) 0).2 = 3) :=
  C2_terminal_status sampleOrchEnvOk initialState rfl rfl [] rfl

/-- C1 counterexample: a version check whose latest version fails to resolve
(value "unknown") while the current version resolved still reports
updateAvailable = true — for checkNpmPackage when the registry JSON lacks a
version field, and for checkRoundcube when the fetched tag list has no tag
matching the version regex — refuting "if either version is unknown then
updateAvailable = false". -/
theorem C1_counterexample :
    ((checkNpmPackage (.ok none) (some "1.0.0") "whatsapp-api").latestVersion = "unknown" ∧
        (checkNpmPackage (.ok none) (some "1.0.0") "whatsapp-api").updateAvailable = true) ∧
      ((checkRoundcube (.ok [])).latestVersion = "unknown" ∧
        (checkRoundcube (.ok [])).currentVersion = "1.6-apache" ∧
        (checkRoundcube (.ok [])).updateAvailable = true) :=
  ⟨⟨rfl, rfl⟩, rfl, rfl, rfl⟩

/-- C1 amended: when the whole check throws, both versions are "unknown" and
updateAvailable is false; otherwise updateAvailable is exactly
currentVersion ≠ latestVersion for checkRoundcube (whose current version is
the pinned "1.6-apache") and exactly currentVersion ≠ "unknown" ∧
currentVersion ≠ latestVersion for checkNpmPackage — so an unresolved
current suppresses updateAvailable for npm checks, but an unresolved latest
with a resolved current yields updateAvailable = true in both checks. -/
theorem C1_update_available_guard (e comp : String) (latest installed : Option String)
    (tagList : List String) :
    checkRoundcube (.error e)
        = { component := "roundcube", currentVersion := "unknown"
            latestVersion := "unknown", updateAvailable := false } ∧
      checkNpmPackage (.error e) installed comp
        = { component := comp, currentVersion := "unknown"
            latestVersion := "unknown", updateAvailable := false } ∧
      (checkRoundcube (.ok tagList)).currentVersion = "1.6-apache" ∧
      ((checkRoundcube (.ok tagList)).updateAvailable
        = ((checkRoundcube (.ok tagList)).currentVersion
            != (checkRoundcube (.ok tagList)).latestVersion)) ∧
      ((checkNpmPackage (.ok latest) installed comp).updateAvailable
        = (((checkNpmPackage (.ok latest) installed comp).currentVersion != "unknown")
            && ((checkNpmPackage (.ok latest) installed comp).currentVersion
                  != (checkNpmPackage (.ok latest) installed comp).latestVersion))) :=
  ⟨rfl, rfl, rfl, rfl, rfl⟩

/-- C4 counterexample: at exactly 7 days until expiry the certificate check
reports error, not warning, refuting "warning when daysUntilExpiry is in the
range 7 to 14 inclusive". -/
theorem C4_counterexample :
    (checkSslCertificate "mail.example.com" (.reached 7 "mail.example.com" "2026-10-18") 5).status
        = CheckStatus.error ∧
      (checkSslCertificate "mail.example.com" (.reached 7 "mail.example.com" "2026-10-18") 5).status
        ≠ CheckStatus.warning := by
  exact ⟨rfl, by decide⟩

/-- C4 amended: when the peer certificate is reached, the status is ok
exactly when daysUntilExpiry > 14, warning exactly when 7 < daysUntilExpiry
≤ 14 (8 to 14 inclusive, not 7 to 14), and error exactly when
daysUntilExpiry ≤ 7; an unreachable host (connection error or timeout)
yields error. -/
theorem C4_ssl_thresholds (host subject expiresAt msg : String) (d : Int) (dur : Nat) :
    ((checkSslCertificate host (.reached d subject expiresAt) dur).status = .ok ↔ 14 < d) ∧
      ((checkSslCertificate host (.reached d subject expiresAt) dur).status = .warning
        ↔ 7 < d ∧ d ≤ 14) ∧
      ((checkSslCertificate host (.reached d subject expiresAt) dur).status = .error ↔ d ≤ 7) ∧
      (checkSslCertificate host (.failed msg) dur).status = .error := by
  refine ⟨?_, ?_, ?_, rfl⟩ <;>
  · simp only [checkSslCertificate]
    split_ifs with h1 h2 <;> simp_all <;> omega

/-- C5 counterexample: the not-configured SMTP check yields a warning that
carries an errorMessage, and the certificate check with 5 days until expiry
yields an error that carries none — refuting "errorMessage present iff
status = error" in both directions. -/
theorem C5_counterexample :
    ((checkSmtp "mail.example.com" 587 .notConfigured 2).status = CheckStatus.warning ∧
        (checkSmtp "mail.example.com" 587 .notConfigured 2).errorMsg
          = some "SMTP credentials not configured") ∧
      ((checkSslCertificate "mail.example.com" (.reached 5 "cn" "2026-10-16") 2).status
          = CheckStatus.error ∧
        (checkSslCertificate "mail.example.com" (.reached 5 "cn" "2026-10-16") 2).errorMsg
          = none) :=
  ⟨⟨rfl, rfl⟩, rfl, rfl⟩

/-- C5 amended: errorMessage is present on every result produced from a
thrown exception or a rejected check promise (all of which have status
error), and also on the not-configured SMTP/IMAP results (status warning);
it is absent on all ok results and on the threshold-derived non-ok results
(ssl_cert with the certificate in hand, roundcube_health with a response),
including their error cases. -/
theorem C5_errorMsg_presence (host url subject expiresAt m : String)
    (port mailboxCount statusCode dur : Nat) (d : Int) (reason : Option String) :
    (checkSmtp host port .verified dur).errorMsg = none ∧
      (checkSmtp host port .notConfigured dur).status = .warning ∧
      (checkSmtp host port .notConfigured dur).errorMsg
        = some "SMTP credentials not configured" ∧
      (checkSmtp host port (.failed m) dur).status = .error ∧
      (checkSmtp host port (.failed m) dur).errorMsg = some m ∧
      (checkImap host port (.loggedIn mailboxCount) dur).errorMsg = none ∧
      (checkImap host port .notConfigured dur).status = .warning ∧
      (checkImap host port .notConfigured dur).errorMsg
        = some "IMAP credentials not configured" ∧
      (checkImap host port (.failed m) dur).status = .error ∧
      (checkImap host port (.failed m) dur).errorMsg = some m ∧
      (checkSslCertificate host (.reached d subject expiresAt) dur).errorMsg = none ∧
      (checkSslCertificate host (.failed m) dur).status = .error ∧
      (checkSslCertificate host (.failed m) dur).errorMsg = some m ∧
      (checkRoundcubeHealth url (.responded statusCode) dur).errorMsg = none ∧
      (checkRoundcubeHealth url (.failed m) dur).status = .error ∧
      (checkRoundcubeHealth url (.failed m) dur).errorMsg = some m ∧
      (unwrapSettled (.rejected reason)).status = .error ∧
      (unwrapSettled (.rejected reason)).errorMsg = some (reason.getD "Promise rejected") :=
  ⟨rfl, rfl, rfl, rfl, rfl, rfl, rfl, rfl, rfl, rfl, rfl, rfl, rfl, rfl, rfl, rfl, rfl, rfl⟩

/-- C6 counterexample: when updates ran and the before/after history SELECT
inside logBeforeAfterReport throws, runFullDiagnostics(true) propagates the
exception to its caller instead of returning a typed report, refuting "no
exception propagates to the caller of runFullDiagnostics". -/
theorem C6_counterexample :
    runFullDiagnostics sampleDiagEnvDbDown true = .error "connection refused" := rfl

/-- C6 amended: runFullDiagnostics without before/after comparison always
returns a typed report, and the orchestrator entry point always returns one
of its typed diagnosticsStatus values; but runFullDiagnostics with
before/after comparison re-throws a failure of the unguarded history SELECT
in logBeforeAfterReport to its caller. -/
theorem C6_exception_propagation (env : DiagEnv) :
    runFullDiagnostics env false = .ok (diagReport env) ∧
      (∀ rows, env.prevRows = .ok rows → runFullDiagnostics env true = .ok (diagReport env)) ∧
      (∀ e, env.prevRows = .error e → runFullDiagnostics env true = .error e) ∧
      (∀ (oenv : OrchestratorEnv) (st : UpdaterState),
        (checkAndInstallAll oenv st).diagnosticsStatus = "update-already-in-progress" ∨
          (checkAndInstallAll oenv st).diagnosticsStatus = "ok" ∨
          (checkAndInstallAll oenv st).diagnosticsStatus = "error" ∨
          (checkAndInstallAll oenv st).diagnosticsStatus = "warning") := by
  refine ⟨runFullDiagnostics_false env,
    fun rows h => runFullDiagnostics_true_ok env rows h,
    fun e h => runFullDiagnostics_true_err env e h, ?_⟩
  intro oenv st
  unfold checkAndInstallAll
  by_cases h0 : st.isUpdating
  · simp [h0]
  · by_cases hP : (pendingUpdates oenv).isEmpty
    · simp [h0, hP]
    · cases hD : runFullDiagnostics (oenv.diag 0) true with
      | error e => simp [h0, hP, hD]
      | ok rep =>
          cases hov : (repairLoop oenv.diag rep 0).1.overall <;>
            simp [h0, hP, hD, hov, statusString]

theorem C6_exception_propagation_witness :
    runFullDiagnostics sampleDiagEnvOk true = .ok (diagReport sampleDiagEnvOk) :=
  (C6_exception_propagation sampleDiagEnvOk).2.1 [] rfl

/-- C7: in every admitted update cycle (history INSERTs succeeding), the
returned results are exactly one installUpdate outcome per pending component
in order — the sequential loop attempts every component no matter how many
fail — every result is written to update_history regardless of its success
flag, and a component whose install step throws mid-action is recorded with
success = false and the captured error text appended to its log output. -/
theorem C7_partial_failure_tolerance (env : OrchestratorEnv) (st : UpdaterState)
    (h0 : st.isUpdating = false) (hdb : ∀ r, env.dbInsertOk r = true) :
    (checkAndInstallAll env st).results
        = (pendingUpdates env).map (fun c => installUpdate (env.install c) c) ∧
      (checkAndInstallAll env st).finalState.history
        = st.history ++ ((checkAndInstallAll env st).results.map updateHistoryRow) ∧
      (∀ (check : UpdateCheckResult) (logSoFar m : String),
        installUpdate (.thrown logSoFar m) check
          = { component := check.component, previousVersion := check.currentVersion
              newVersion := check.latestVersion, success := false
              logOutput := logSoFar ++ "\nERROR: " ++ m }) := by
  refine ⟨?_, ?_, fun check logSoFar m => rfl⟩ <;>
  · unfold checkAndInstallAll
    by_cases hP : (pendingUpdates env).isEmpty
    · have hnil : pendingUpdates env = [] := by
        cases hE : pendingUpdates env
        · rfl
        · rw [hE] at hP; simp at hP
      simp [h0, hP, hnil, setProgress]
    · cases hD : runFullDiagnostics (env.diag 0) true <;>
        simp [h0, hP, hD, installLoop_results, installLoop_history env hdb,
          setProgress, enterMaintenanceMode, exitMaintenanceMode]

theorem C7_partial_failure_tolerance_witness :
    (checkAndInstallAll sampleOrchEnvThrown initialState).results
        = (pendingUpdates sampleOrchEnvThrown).map
            (fun c => installUpdate (sampleOrchEnvThrown.install c) c) ∧
      (checkAndInstallAll sampleOrchEnvThrown initialState).finalState.history
        = initialState.history
            ++ ((checkAndInstallAll sampleOrchEnvThrown initialState).results.map
                  updateHistoryRow) ∧
      (∀ (check : UpdateCheckResult) (logSoFar m : String),
        installUpdate (.thrown logSoFar m) check
          = { component := check.component, previousVersion := check.currentVersion
              newVersion := check.latestVersion, success := false
              logOutput := logSoFar ++ "\nERROR: " ++ m }) :=
  C7_partial_failure_tolerance sampleOrchEnvThrown initialState rfl (fun _ => rfl)

/-- C8: every diagnostics report carries exactly one CheckResult per
registered check — the four unwrapped settled outcomes in registration
order, hence always length 4 — a rejected check promise is wrapped into an
error CheckResult, and any report runFullDiagnostics actually returns has
exactly 4 checks. -/
theorem C8_one_result_per_check (env : DiagEnv) :
    (diagReport env).checks
        = [unwrapSettled env.smtp, unwrapSettled env.imap, unwrapSettled env.ssl,
           unwrapSettled env.roundcube] ∧
      (diagReport env).checks.length = 4 ∧
      (∀ reason, (unwrapSettled (.rejected reason)).status = .error) ∧
      (∀ (b : Bool) (report : DiagnosticsReport),
        runFullDiagnostics env b = .ok report → report.checks.length = 4) := by
  refine ⟨rfl, rfl, fun reason => rfl, ?_⟩
  intro b report h
  have hrep : report = diagReport env := by
    cases b
    · rw [runFullDiagnostics_false] at h
      exact (Except.ok.inj h).symm
    · cases hp : env.prevRows with
      | error e =>
          rw [runFullDiagnostics_true_err env e hp] at h
          exact absurd h (by simp)
      | ok rows =>
          rw [runFullDiagnostics_true_ok env rows hp] at h
          exact (Except.ok.inj h).symm
  rw [hrep]
  rfl

theorem C8_one_result_per_check_witness :
    runFullDiagnostics sampleDiagEnvWarn true = .ok (diagReport sampleDiagEnvWarn) ∧
      (diagReport sampleDiagEnvWarn).checks.length = 4 :=
  ⟨runFullDiagnostics_true_ok sampleDiagEnvWarn [] rfl,
    (C8_one_result_per_check sampleDiagEnvWarn).2.2.2 true (diagReport sampleDiagEnvWarn)
      (runFullDiagnostics_true_ok sampleDiagEnvWarn [] rfl)⟩
